import Mathlib

/-
Verification development for the domain-checker repository.

The repository holds two Netlify function implementations of a domain-expiry
lookup endpoint:

* `src/unnamed/part_000` — a multi-source orchestrator (two hosted WHOIS APIs,
  then the system `whois` command) with a free-text WHOIS parser
  `parseWhoisOutput`; modelled below in namespace `Part000`.
* `src/netlify/functions/check-domain.js` — a single-source handler using
  `getWhoisData`, with domain-syntax validation and a deterministic sample-data
  fallback `generateSampleData`; modelled below in namespace `CheckDomain`.

JavaScript values that flow through the handlers dynamically are modelled by
the `JsonVal` type together with JS truthiness and property access; promises
that may reject are modelled by `Except`; the current time is an explicit
integer parameter (epoch milliseconds), and `Date.prototype.toISOString` is
implemented over it.
-/

namespace DomainChecker

/-- Model of a parsed JSON value (the result of `JSON.parse` and the objects
the handlers build). `jnull` stands for JSON `null`. -/
inductive JsonVal where
  | jnull
  | jstr (s : String)
  | jnum (n : Int)
  | jbool (b : Bool)
  | jobj (fields : List (String × JsonVal))
  | jarr (elems : List JsonVal)

/-- JS truthiness of a JSON value: `null`, `""`, `0` and `false` are falsy;
objects and arrays are always truthy. -/
def jsTruthy : JsonVal → Bool
  | .jnull => false
  | .jstr s => s ≠ ""
  | .jnum n => n ≠ 0
  | .jbool b => b
  | .jobj _ => true
  | .jarr _ => true

/-- Property access `v[k]` on a JSON value, as used on values already known to
be non-null: objects yield the field's value (`none` = JS `undefined` when the
field is absent), primitives and arrays yield `undefined`. -/
def jGetOpt : JsonVal → String → Option JsonVal
  | .jobj fs, k => (fs.find? (fun p => p.1 = k)).map (fun p => p.2)
  | _, _ => none

/-- Property access that models the JS `TypeError` thrown when the base value
is `null` (`Except.error`); all other bases answer as `jGetOpt`. -/
def jsGet : JsonVal → String → Except Unit (Option JsonVal)
  | .jnull, _ => .error ()
  | v, k => .ok (jGetOpt v k)

/-- Truthiness of a possibly-undefined JS value (`undefined` is falsy). -/
def truthyOpt : Option JsonVal → Bool
  | none => false
  | some v => jsTruthy v

/-- The JS expression `x || null`: `x` when truthy, otherwise JSON `null`. -/
def orNull : Option JsonVal → JsonVal
  | none => .jnull
  | some v => if jsTruthy v then v else .jnull

/-- The JS strict comparison `x === "s"` for a possibly-undefined value. -/
def isStr (v : Option JsonVal) (s : String) : Bool :=
  match v with
  | some (.jstr t) => t = s
  | _ => false

end DomainChecker

namespace Part000
open DomainChecker

/-- `pat` occurs as a contiguous run inside `s` (character lists). -/
def listInfix (pat : List Char) : List Char → Bool
  | [] => pat.isEmpty
  | c :: tail => pat.isPrefixOf (c :: tail) || listInfix pat tail

/-- The JS `String.prototype.includes`: `s.includes pat`. -/
def containsSub (s pat : String) : Bool :=
  listInfix pat.data s.data

/-- Split a character list at every occurrence of `sep`, keeping empty
groups, as `String.prototype.split` does with a single-character
separator. -/
def splitChar (sep : Char) : List Char → List (List Char)
  | [] => [[]]
  | c :: rest =>
    if c = sep then [] :: splitChar sep rest
    else
      match splitChar sep rest with
      | [] => [[c]]
      | g :: gs => (c :: g) :: gs

/-- The JS `s.split(sep)` for a one-character separator (the source only
splits on `'\n'`, `':'` and `'.'`). -/
def jsSplit (sep : Char) (s : String) : List String :=
  (splitChar sep s.data).map (fun cs => String.mk cs)

/-- The JS `String.prototype.trim`: strip leading and trailing
whitespace. -/
def jsTrim (s : String) : String :=
  String.mk (((s.data.dropWhile Char.isWhitespace).reverse.dropWhile
    Char.isWhitespace).reverse)

/-- The JS `String.prototype.toLowerCase` (character-wise lowering; the
keywords involved are ASCII). -/
def jsToLower (s : String) : String :=
  String.mk (s.data.map Char.toLower)

/-- Keywords whose presence in a lowercased line makes `parseWhoisOutput`
populate the expiry date (source: the three `lowerLine.includes(...)` tests
guarding the `expiryDate` assignment). -/
def expiryKeywords : List String :=
  ["expiry date:", "expires:", "expiration date:"]

/-- Keyword guarding the `registrar` assignment in `parseWhoisOutput`. -/
def registrarKeywords : List String :=
  ["registrar:"]

/-- Keywords guarding the `creationDate` assignment in `parseWhoisOutput`. -/
def creationKeywords : List String :=
  ["creation date:", "created:"]

/-- A line matches a field when its lowercased text contains one of the
field's keywords as a substring (the code's `line.toLowerCase()` followed by
`lowerLine.includes(keyword)`). -/
def kwMatch (kws : List String) (line : String) : Bool :=
  kws.any (fun k => containsSub (jsToLower line) k)

/-- The value `parseWhoisOutput` extracts from a line:
`line.split(':')[1]?.trim()` — the text between the first and second colon,
trimmed; `none` models `undefined` (no colon in the line). -/
def extractVal (line : String) : Option String :=
  ((jsSplit ':' line).get? 1).map jsTrim

/-- JS falsiness of a field variable holding `null`/`undefined` or a string:
`null`, `undefined` and `""` are falsy. -/
def strFalsy : Option String → Bool
  | none => true
  | some s => s = ""

/-- The mutable state of `parseWhoisOutput`'s loop over lines. -/
structure PState where
  expiry : Option String
  registrar : Option String
  creation : Option String

/-- One iteration of `parseWhoisOutput`'s `for (const line of lines)` loop.
The source performs three independent guarded assignments (each field is
assigned only when it is still falsy and its keyword test succeeds). -/
def stepLine (st : PState) (line : String) : PState :=
  { expiry :=
      if strFalsy st.expiry && kwMatch expiryKeywords line then extractVal line
      else st.expiry,
    registrar :=
      if strFalsy st.registrar && kwMatch registrarKeywords line then extractVal line
      else st.registrar,
    creation :=
      if strFalsy st.creation && kwMatch creationKeywords line then extractVal line
      else st.creation }

/-- The object returned by `parseWhoisOutput`. -/
structure ParsedWhois where
  domain_name : String
  expiry_date : Option String
  registrar : Option String
  creation_date : Option String

/-- `parseWhoisOutput(whoisData, domain)` from `src/unnamed/part_000`: split
the raw text on newlines, run the keyword loop, and return the record. -/
def parseWhoisOutput (whoisData : String) (domain : String) : ParsedWhois :=
  let fin := (jsSplit '\n' whoisData).foldl stepLine ⟨none, none, none⟩
  { domain_name := domain,
    expiry_date := fin.expiry,
    registrar := fin.registrar,
    creation_date := fin.creation }

/-- JSON serialization of the record `parseWhoisOutput` returns, mirroring
`JSON.stringify` of the object literal at the end of the function. -/
def ParsedWhois.toJson (r : ParsedWhois) : JsonVal :=
  let f : Option String → JsonVal := fun o =>
    match o with
    | none => .jnull
    | some s => .jstr s
  .jobj [("domain_name", .jstr r.domain_name),
         ("expiry_date", f r.expiry_date),
         ("registrar", f r.registrar),
         ("creation_date", f r.creation_date)]

/-- Outcome of one of the two hosted-API sources in `part_000`
(`fetchFromWhoisJSON` / `fetchFromFreeAPI`): the promise either rejects
(network error or JSON parse error) or resolves with the parsed JSON body. -/
abbrev ApiOutcome := Except Unit JsonVal

/-- Outcome of the `execAsync('whois ...')` call in `part_000`: either the
command throws, or it yields the raw stdout text. -/
abbrev WhoisOutcome := Except Unit String

/-- The three source outcomes a single invocation of `part_000`'s handler
observes, in the order the handler tries them. -/
structure Sources where
  api1 : ApiOutcome
  api2 : ApiOutcome
  whois : WhoisOutcome

/-- The query-parameter collection of a request (`event.queryStringParameters`
when it is an object); `domain` is `none` when the parameter is absent. -/
structure QueryParams where
  domain : Option String

/-- The request event: HTTP method and the query-parameter collection, which
itself may be null/missing (`none`). -/
structure Event where
  httpMethod : String
  queryStringParameters : Option QueryParams

/-- Response body of `part_000`'s handler: empty (OPTIONS), an
`{error: msg}` object, or the JSON-serialized source record. -/
inductive Body where
  | empty
  | error (msg : String)
  | json (v : JsonVal)

/-- HTTP response of `part_000`'s handler (CORS headers are constant and
omitted). -/
structure Response where
  statusCode : Nat
  body : Body

/-- The 404 response returned when all three sources are exhausted. -/
def notFoundResp : Response :=
  ⟨404, .error "도메인 정보를 찾을 수 없습니다. 도메인이 올바른지 확인해주세요."⟩

/-- `exports.handler` from `src/unnamed/part_000`. The three source attempts
are passed in as `src`; each `catch` around a source swallows its failure and
falls through. Accessing `.domain` on a null/missing `queryStringParameters`
throws a `TypeError`, which the outer `catch` converts to a 500 response. -/
def handler (ev : Event) (src : Sources) : Response :=
  if ev.httpMethod = "OPTIONS" then ⟨200, .empty⟩
  else
    match ev.queryStringParameters with
    | none =>
      ⟨500, .error "서버 오류가 발생했습니다: Cannot read properties of undefined (reading 'domain')"⟩
    | some q =>
      match q.domain with
      | none => ⟨400, .error "도메인을 입력해주세요."⟩
      | some d =>
        if d = "" then ⟨400, .error "도메인을 입력해주세요."⟩
        else
          -- try source 3: system whois + parseWhoisOutput
          let try3 : Response :=
            match src.whois with
            | .error _ => notFoundResp
            | .ok stdout =>
              let r := parseWhoisOutput stdout d
              if !(strFalsy r.expiry_date) then ⟨200, .json r.toJson⟩
              else notFoundResp
          -- try source 2: whois.freeaiapi.xyz
          let try2 : Response :=
            match src.api2 with
            | .error _ => try3
            | .ok j =>
              if jsTruthy j && truthyOpt (jGetOpt j "expiry_date") then ⟨200, .json j⟩
              else try3
          -- try source 1: whoisjsonapi.com
          match src.api1 with
          | .error _ => try2
          | .ok j =>
            if jsTruthy j && truthyOpt (jGetOpt j "expiry_date") then ⟨200, .json j⟩
            else try2

end Part000

namespace CheckDomain
open DomainChecker Part000

/-- UTF-16 code units of a character, as `String.prototype.charCodeAt`
enumerates them (characters beyond the BMP become a surrogate pair). -/
def utf16Codes (c : Char) : List Nat :=
  let n := c.toNat
  if n < 65536 then [n]
  else [55296 + (n - 65536) / 1024, 56320 + (n - 65536) % 1024]

/-- The seed `generateSampleData` accumulates: the sum of
`domain.charCodeAt(i)` over all code units of the domain. -/
def charCodeSeed (s : String) : Nat :=
  (s.data.map (fun c => (utf16Codes c).sum)).sum

/-- Zero-pad the decimal digits of `n` on the left to width `len`. -/
def pad (len : Nat) (n : Nat) : String :=
  let s := toString n
  String.mk (List.replicate (len - s.length) '0') ++ s

/-- Proleptic-Gregorian civil date (year, month, day) of a day count relative
to 1970-01-01, matching the UTC calendar JavaScript `Date` uses. -/
def civilFromDays (z : Int) : Int × Nat × Nat :=
  let zd := z + 719468
  let era : Int := zd.ediv 146097
  let doe : Nat := (zd.emod 146097).toNat
  let yoe : Nat := (doe - doe / 1460 + doe / 36524 - doe / 146096) / 365
  let y : Int := era * 400 + yoe
  let doy : Nat := doe - (365 * yoe + yoe / 4 - yoe / 100)
  let mp : Nat := (5 * doy + 2) / 153
  let d : Nat := doy - (153 * mp + 2) / 5 + 1
  let m : Nat := if mp < 10 then mp + 3 else mp - 9
  (if m ≤ 2 then y + 1 else y, m, d)

/-- `Date.prototype.toISOString` on an epoch-millisecond timestamp:
`YYYY-MM-DDTHH:mm:ss.sssZ`, with the expanded-year form outside 0000–9999. -/
def toISOString (ms : Int) : String :=
  let days : Int := ms.ediv 86400000
  let tod : Nat := (ms.emod 86400000).toNat
  let c := civilFromDays days
  let y := c.1
  let yearStr :=
    if 0 ≤ y ∧ y ≤ 9999 then pad 4 y.toNat
    else (if y < 0 then "-" else "+") ++ pad 6 y.natAbs
  yearStr ++ "-" ++ pad 2 c.2.1 ++ "-" ++ pad 2 c.2.2 ++ "T" ++
    pad 2 (tod / 3600000) ++ ":" ++ pad 2 (tod / 60000 % 60) ++ ":" ++
    pad 2 (tod / 1000 % 60) ++ "." ++ pad 3 (tod % 1000) ++ "Z"

/-- The `registrars` array inside `generateSampleData`. -/
def registrarsList : List String :=
  ["GoDaddy.com, LLC", "Namecheap, Inc.", "Google Domains LLC",
   "Amazon Registrar, Inc.", "Cloudflare, Inc.", "Network Solutions, LLC"]

/-- The record type resolved by `getWhoisData` and serialized into the 200
response body of `check-domain.js`. Field values that come from the upstream
JSON are kept as `JsonVal`; the sample generator stores ISO date strings. -/
structure WhoisRecord where
  domain : String
  expiry_date : JsonVal
  creation_date : JsonVal
  registrar : JsonVal
  status : String

/-- `generateSampleData(domain)` from `check-domain.js`, with the current
time `nowMs` (epoch milliseconds) passed explicitly in place of
`new Date()`. -/
def generateSampleData (domain : String) (nowMs : Int) : WhoisRecord :=
  let seed := charCodeSeed domain
  let daysToAdd : Nat := 30 + seed % 335
  let expiryMs : Int := nowMs + (daysToAdd : Int) * 86400000
  let yearsAgo : Nat := 1 + seed % 3
  let creationMs : Int := expiryMs - (yearsAgo : Int) * 365 * 24 * 60 * 60 * 1000
  { domain := domain,
    expiry_date := .jstr (toISOString expiryMs),
    creation_date := .jstr (toISOString creationMs),
    registrar := .jstr (registrarsList.getD (seed % registrarsList.length) ""),
    status := "registered" }

/-- The interaction `getWhoisData` has with its upstream request: the request
errors, times out, delivers a body that is not valid JSON, or delivers a body
that parses to `parsed`. -/
inductive Upstream where
  | reqError
  | timeout
  | parseError
  | response (parsed : JsonVal)

/-- `getWhoisData(domain)` from `check-domain.js`. `Except.error` would model
a rejected promise; every path in the source calls `resolve`, so the result
is always `Except.ok`. `.ok none` models `resolve(null)` (domain available);
`.ok (some r)` models resolving a record. A `TypeError` from accessing
`.status` on a null JSON body is caught by the same `catch` as a parse error
and yields sample data; once that access has succeeded the base is non-null,
so the later field reads use plain access. -/
def getWhoisData (domain : String) (up : Upstream) (nowMs : Int) :
    Except String (Option WhoisRecord) :=
  match up with
  | .reqError => .ok (some (generateSampleData domain nowMs))
  | .timeout => .ok (some (generateSampleData domain nowMs))
  | .parseError => .ok (some (generateSampleData domain nowMs))
  | .response parsed =>
    match jsGet parsed "status" with
    | .error _ => .ok (some (generateSampleData domain nowMs))
    | .ok st =>
      if isStr st "available" then .ok none
      else if isStr st "registered" && truthyOpt (jGetOpt parsed "expiry_date") then
        .ok (some
          { domain := domain,
            expiry_date := (jGetOpt parsed "expiry_date").getD .jnull,
            creation_date := orNull (jGetOpt parsed "creation_date"),
            registrar := orNull (jGetOpt parsed "registrar"),
            status := "registered" })
      else .ok (some (generateSampleData domain nowMs))

/-- Whether a character belongs to the regex class `[a-zA-Z0-9]`. -/
def alnum (c : Char) : Bool := c.isAlphanum

/-- Whether a string matches the label sub-pattern
`[a-zA-Z0-9]([a-zA-Z0-9-]{0,61}[a-zA-Z0-9])?` of the domain regex: a single
alphanumeric character, or 2–63 characters starting and ending alphanumeric
with alphanumerics and hyphens between. -/
def labelOk (s : String) : Bool :=
  match s.data with
  | [] => false
  | [c] => alnum c
  | c :: rest =>
    alnum c &&
    (match rest.getLast? with
     | none => false
     | some lastc => alnum lastc) &&
    rest.dropLast.all (fun x => alnum x || x = '-') &&
    rest.dropLast.length ≤ 61

/-- Whether a string matches the TLD sub-pattern `[a-zA-Z]{2,}`. -/
def tldOk (s : String) : Bool :=
  s.data.length ≥ 2 && s.data.all Char.isAlpha

/-- `domainRegex.test(domain)` from `check-domain.js`, for the anchored regex
`^L(\.L)*\.T$` with `L` the label pattern and `T` the TLD pattern. Neither
sub-pattern can match a dot, so a string matches exactly when splitting it at
the dots yields at least two parts, every part but the last matches `L`, and
the last matches `T`. -/
def domainRegexTest (s : String) : Bool :=
  let parts := Part000.jsSplit '.' s
  decide (2 ≤ parts.length) && parts.dropLast.all labelOk &&
    (match parts.getLast? with
     | none => false
     | some t => tldOk t)

/-- Response body of the `check-domain.js` handler. -/
inductive CBody where
  | empty
  | error (msg : String)
  | record (r : WhoisRecord)

/-- HTTP response of the `check-domain.js` handler (constant CORS headers
omitted). -/
structure CResponse where
  statusCode : Nat
  body : CBody

/-- `exports.handler` from `src/netlify/functions/check-domain.js`. The
optional chaining `event.queryStringParameters?.domain` never throws; a falsy
domain (absent or empty) yields 400, a syntactically invalid one yields 400,
and otherwise the outcome of `getWhoisData` decides between 404 and 200. A
rejected `getWhoisData` promise would be caught and yield 500. -/
def handler (ev : Event) (up : Upstream) (nowMs : Int) : CResponse :=
  if ev.httpMethod = "OPTIONS" then ⟨200, .empty⟩
  else
    match ev.queryStringParameters.bind (fun q => q.domain) with
    | none => ⟨400, .error "도메인 파라미터가 필요합니다."⟩
    | some d =>
      if d = "" then ⟨400, .error "도메인 파라미터가 필요합니다."⟩
      else if !(domainRegexTest d) then ⟨400, .error "올바르지 않은 도메인 형식입니다."⟩
      else
        match getWhoisData d up nowMs with
        | .error e => ⟨500, .error ("서버 내부 오류가 발생했습니다: " ++ e)⟩
        | .ok none =>
          ⟨404, .error "도메인 정보를 찾을 수 없습니다. 도메인이 올바른지 확인해주세요."⟩
        | .ok (some r) => ⟨200, .record r⟩

end CheckDomain

namespace Part000

/-- Per-field projection of `parseWhoisOutput`'s loop: the evolution of one
field variable over the lines, starting from state `st`. -/
def fieldFold (kws : List String) (st : Option String) : List String → Option String
  | [] => st
  | l :: ls => fieldFold kws (if strFalsy st && kwMatch kws l then extractVal l else st) ls

/-- A line is a good match for a field when it matches the field's keywords
and its extracted value is truthy (a non-empty string). -/
def goodLine (kws : List String) (l : String) : Bool :=
  kwMatch kws l && !(strFalsy (extractVal l))

/-- Declarative description of what `parseWhoisOutput` leaves in one field:
the extracted value of the first good line; failing that, the extracted value
of the last matching line (all such values are falsy); failing that, null. -/
def firstFieldValue (kws : List String) (ls : List String) : Option String :=
  match ls.find? (goodLine kws) with
  | some l => extractVal l
  | none =>
    match (ls.filter (kwMatch kws)).getLast? with
    | some l => extractVal l
    | none => none

end Part000

namespace CheckDomain
open DomainChecker

/-- The upstream interaction reports the domain as available: the response
body parses and carries `status === 'available'`. -/
def upstreamAvailable (up : Upstream) : Bool :=
  match up with
  | .response p =>
    match jsGet p "status" with
    | .ok st => isStr st "available"
    | .error _ => false
  | _ => false

/-- The upstream response is a genuine registered record: the body parses
without a `TypeError`, its status is `'registered'` and its `expiry_date` is
truthy. -/
def genuineRegistered (up : Upstream) : Bool :=
  match up with
  | .response p =>
    match jsGet p "status" with
    | .ok st => isStr st "registered" && truthyOpt (jGetOpt p "expiry_date")
    | .error _ => false
  | _ => false

end CheckDomain

/-- Claim C2 (code bug): the parser is specified to populate a field only
when the normalized key before the first colon equals a keyword, but the code
tests `lowerLine.includes(keyword)`: the line `"Note: expiry date: is
unknown"`, whose normalized key is `"note"`, populates `expiry_date` (with
the truncated value `"expiry date"`) even though `"note"` is not an expiry
keyword. -/
theorem c2_substring_match_false_positive :
    (Part000.parseWhoisOutput "Note: expiry date: is unknown" "example.com").expiry_date
        = some "expiry date" ∧
    ((Part000.jsSplit ':' "Note: expiry date: is unknown").get? 0).map
        (fun k => Part000.jsToLower (Part000.jsTrim k)) = some "note" ∧
    ¬ ("note" ∈ Part000.expiryKeywords) :=
  ⟨rfl, rfl, by decide⟩

/-- Claim C4 (code bug): on the spec's scenario text the parser is supposed
to extract the full value after the first colon, `"2025-01-01T00:00:00Z"`,
but `line.split(':')[1]` keeps only the segment between the first and second
colon, so the code yields the truncated `"2025-01-01T00"`; the registrar and
creation-date parts of the scenario do hold. -/
theorem c4_expiry_truncated_at_second_colon :
    (Part000.parseWhoisOutput
        "Registry Expiry Date: 2025-01-01T00:00:00Z\nRegistrar: Example Registrar"
        "example.com").expiry_date = some "2025-01-01T00" ∧
    (Part000.parseWhoisOutput
        "Registry Expiry Date: 2025-01-01T00:00:00Z\nRegistrar: Example Registrar"
        "example.com").registrar = some "Example Registrar" ∧
    (Part000.parseWhoisOutput
        "Registry Expiry Date: 2025-01-01T00:00:00Z\nRegistrar: Example Registrar"
        "example.com").creation_date = none ∧
    some "2025-01-01T00" ≠ some "2025-01-01T00:00:00Z" :=
  ⟨rfl, rfl, rfl, by decide⟩

/-- Claim C5 counterexample: parsing the Korean-labeled line
`"만료일 : 2026-03-15"` does not yield expiry_date `"2026-03-15"`. -/
theorem c5_korean_label_not_parsed :
    (Part000.parseWhoisOutput "만료일 : 2026-03-15" "example.kr").expiry_date
      ≠ some "2026-03-15" := by decide

/-- Claim C5 (corrected): parsing the Korean-labeled line
`"만료일 : 2026-03-15"` yields expiry_date null — the parser's expiry
keyword set contains only the English labels and no Korean registry
labels. -/
theorem c5_korean_label_yields_null :
    (Part000.parseWhoisOutput "만료일 : 2026-03-15" "example.kr").expiry_date = none :=
  rfl

/-- Claim C9 (code bug): a line matching the registrar keyword set is
supposed to leave expiry_date unchanged, but inserting the registrar line
`"Registrar: expires: 2030"` (whose value contains an expiry keyword as a
substring) in front of a creation-date-only text changes expiry_date from
null to `"expires"`. -/
theorem c9_registrar_line_alters_expiry :
    Part000.kwMatch Part000.registrarKeywords "Registrar: expires: 2030" = true ∧
    (Part000.parseWhoisOutput "Creation Date: 2001-05-05" "example.com").expiry_date
      = none ∧
    (Part000.parseWhoisOutput "Registrar: expires: 2030\nCreation Date: 2001-05-05"
        "example.com").expiry_date = some "expires" ∧
    (Part000.parseWhoisOutput "Registrar: expires: 2030\nCreation Date: 2001-05-05"
        "example.com").creation_date = some "2001-05-05" :=
  ⟨rfl, rfl, rfl, rfl⟩

/-- Claim C8 counterexample: in `"Expires: \nExpires: 2030-01-01"` the first
line matches the expiry keywords with extracted value `""`, yet the parser's
output is the second line's value `"2030-01-01"` — the first matching line
does not win and is overwritten by a later one. -/
theorem c8_empty_value_overwritten :
    Part000.kwMatch Part000.expiryKeywords "Expires: " = true ∧
    Part000.extractVal "Expires: " = some "" ∧
    (Part000.parseWhoisOutput "Expires: \nExpires: 2030-01-01" "example.com").expiry_date
      = some "2030-01-01" ∧
    some "2030-01-01" ≠ Part000.extractVal "Expires: " :=
  ⟨rfl, rfl, rfl, by decide⟩

/-- Claim C6 counterexample: the `part_000` handler evaluates
`event.queryStringParameters.domain` without optional chaining, so a request
whose query-parameter collection is null/missing throws and yields 500, not
400. -/
theorem c6_p0_null_params_gives_500 :
    (Part000.handler ⟨"GET", none⟩ ⟨.error (), .error (), .error ()⟩).statusCode = 500 :=
  rfl

/-- Claim C7 counterexample: the `part_000` handler performs no syntactic
domain validation — with the invalid domain `"not a domain"` it proceeds to
the sources (returning 200 when the system whois source succeeds, 404 when
every source fails) and never returns 400. -/
theorem c7_p0_invalid_domain_reaches_sources :
    (Part000.handler ⟨"GET", some ⟨some "not a domain"⟩⟩
        ⟨.error (), .error (), .ok "expires: 2030-01-01"⟩).statusCode = 200 ∧
    (Part000.handler ⟨"GET", some ⟨some "not a domain"⟩⟩
        ⟨.error (), .error (), .error ()⟩).statusCode = 404 ∧
    CheckDomain.domainRegexTest "not a domain" = false :=
  ⟨rfl, rfl, rfl⟩

/-- Claim C3 counterexample: when the `part_000` handler succeeds through the
system-whois source, the 200 body is the `parseWhoisOutput` record, which has
a `domain_name` field but no `domain` field and no `status` field. -/
theorem c3_p0_body_lacks_domain_and_status :
    (Part000.handler ⟨"GET", some ⟨some "example.com"⟩⟩
        ⟨.error (), .error (), .ok "expires: 2030-01-01"⟩).statusCode = 200 ∧
    (match (Part000.handler ⟨"GET", some ⟨some "example.com"⟩⟩
        ⟨.error (), .error (), .ok "expires: 2030-01-01"⟩).body with
     | .json v =>
       DomainChecker.jGetOpt v "domain" = none ∧
       DomainChecker.jGetOpt v "status" = none ∧
       DomainChecker.jGetOpt v "domain_name" = some (.jstr "example.com") ∧
       DomainChecker.jGetOpt v "expiry_date" = some (.jstr "2030-01-01")
     | _ => False) :=
  ⟨rfl, rfl, rfl, rfl, rfl⟩

/-- Claim C1 (code bug): for a domain where the only source of
`check-domain.js` fails with a request error, the handler does not return
404 — `getWhoisData` resolves a fabricated sample record (with a non-null
expiry date and status `"registered"`) and the handler returns it with
status 200. -/
theorem c1_handler_fabricates_on_request_error :
    (CheckDomain.handler ⟨"GET", some ⟨some "example.com"⟩⟩ .reqError 0).statusCode = 200 ∧
    (CheckDomain.handler ⟨"GET", some ⟨some "example.com"⟩⟩ .reqError 0).body
      = .record (CheckDomain.generateSampleData "example.com" 0) ∧
    (CheckDomain.generateSampleData "example.com" 0).expiry_date ≠ .jnull ∧
    (CheckDomain.generateSampleData "example.com" 0).status = "registered" :=
  ⟨rfl, rfl, fun h => DomainChecker.JsonVal.noConfusion h, rfl⟩

theorem fieldFold_of_not_falsy (kws : List String) (ls : List String) :
    ∀ st : Option String, Part000.strFalsy st = false →
      Part000.fieldFold kws st ls = st := by
  induction ls with
  | nil => intro st h; rfl
  | cons l ls ih =>
    intro st h
    simp only [Part000.fieldFold, h, Bool.false_and, Bool.false_eq_true, if_false]
    exact ih st h

theorem find?_good_none (kws : List String) (ls : List String) :
    ls.filter (Part000.kwMatch kws) = [] →
      ls.find? (Part000.goodLine kws) = none := by
  induction ls with
  | nil => intro _; rfl
  | cons l ls ih =>
    intro h
    by_cases hm : Part000.kwMatch kws l = true
    · simp [List.filter_cons, hm] at h
    · have hgood : Part000.goodLine kws l = false := by
        simp [Part000.goodLine, hm]
      rw [List.find?_cons_of_neg _ (by simp [hgood])]
      apply ih
      simpa [List.filter_cons, hm] using h

theorem fieldFold_falsy (kws : List String) (ls : List String) :
    ∀ st : Option String, Part000.strFalsy st = true →
      Part000.fieldFold kws st ls =
        (match ls.find? (Part000.goodLine kws) with
         | some l => Part000.extractVal l
         | none =>
           match (ls.filter (Part000.kwMatch kws)).getLast? with
           | some l => Part000.extractVal l
           | none => st) := by
  induction ls with
  | nil => intro st h; rfl
  | cons l ls ih =>
    intro st h
    by_cases hm : Part000.kwMatch kws l = true
    · by_cases hg : Part000.strFalsy (Part000.extractVal l) = true
      · have hgood : Part000.goodLine kws l = false := by
          simp [Part000.goodLine, hm, hg]
        rw [Part000.fieldFold, if_pos (by simp [h, hm]), ih _ hg,
          List.find?_cons_of_neg _ (by simp [hgood]), List.filter_cons, if_pos hm]
        cases hfind : ls.find? (Part000.goodLine kws) with
        | some l' => simp
        | none =>
          cases hfl : ls.filter (Part000.kwMatch kws) with
          | nil => simp
          | cons a fl =>
            cases hgl : (a :: fl).getLast? with
            | none => exact absurd (List.getLast?_eq_none_iff.mp hgl) (by simp)
            | some x => simp [hgl]
      · have hgood : Part000.goodLine kws l = true := by
          simp [Part000.goodLine, hm]
          simpa using hg
        rw [Part000.fieldFold, if_pos (by simp [h, hm]),
          fieldFold_of_not_falsy kws ls _ (by simpa using hg),
          List.find?_cons_of_pos _ (by simp [hgood])]
    · have hgood : Part000.goodLine kws l = false := by
        simp [Part000.goodLine, hm]
      rw [Part000.fieldFold, if_neg (by simp [hm]), ih _ h,
        List.find?_cons_of_neg _ (by simp [hgood]), List.filter_cons, if_neg hm]

theorem foldl_stepLine_expiry (ls : List String) :
    ∀ st : Part000.PState,
      (ls.foldl Part000.stepLine st).expiry =
        Part000.fieldFold Part000.expiryKeywords st.expiry ls := by
  induction ls with
  | nil => intro st; rfl
  | cons l ls ih =>
    intro st
    rw [List.foldl_cons, ih]
    rfl

theorem foldl_stepLine_registrar (ls : List String) :
    ∀ st : Part000.PState,
      (ls.foldl Part000.stepLine st).registrar =
        Part000.fieldFold Part000.registrarKeywords st.registrar ls := by
  induction ls with
  | nil => intro st; rfl
  | cons l ls ih =>
    intro st
    rw [List.foldl_cons, ih]
    rfl

theorem foldl_stepLine_creation (ls : List String) :
    ∀ st : Part000.PState,
      (ls.foldl Part000.stepLine st).creation =
        Part000.fieldFold Part000.creationKeywords st.creation ls := by
  induction ls with
  | nil => intro st; rfl
  | cons l ls ih =>
    intro st
    rw [List.foldl_cons, ih]
    rfl

/-- Claim C8 (corrected): for each of the three fields, the parser's output
is the extracted value (text between the first and second colon, trimmed) of
the first line, in document order, that matches the field's keywords and
whose extracted value is non-empty, and such a value is never overwritten; a
matching line with an empty extracted value does not settle the field — if
every matching line has an empty value the field ends as the last matching
line's value, and with no matching line it is null. -/
theorem c8_first_nonempty_match_characterization (t d : String) :
    (Part000.parseWhoisOutput t d).expiry_date
        = Part000.firstFieldValue Part000.expiryKeywords (Part000.jsSplit '\n' t) ∧
    (Part000.parseWhoisOutput t d).registrar
        = Part000.firstFieldValue Part000.registrarKeywords (Part000.jsSplit '\n' t) ∧
    (Part000.parseWhoisOutput t d).creation_date
        = Part000.firstFieldValue Part000.creationKeywords (Part000.jsSplit '\n' t) := by
  refine ⟨?_, ?_, ?_⟩
  · show ((Part000.jsSplit '\n' t).foldl Part000.stepLine ⟨none, none, none⟩).expiry = _
    rw [foldl_stepLine_expiry,
      fieldFold_falsy Part000.expiryKeywords (Part000.jsSplit '\n' t) none rfl]
    rfl
  · show ((Part000.jsSplit '\n' t).foldl Part000.stepLine ⟨none, none, none⟩).registrar = _
    rw [foldl_stepLine_registrar,
      fieldFold_falsy Part000.registrarKeywords (Part000.jsSplit '\n' t) none rfl]
    rfl
  · show ((Part000.jsSplit '\n' t).foldl Part000.stepLine ⟨none, none, none⟩).creation = _
    rw [foldl_stepLine_creation,
      fieldFold_falsy Part000.creationKeywords (Part000.jsSplit '\n' t) none rfl]
    rfl

theorem getWhoisData_ok_none_iff (d : String) (up : CheckDomain.Upstream) (now : Int) :
    CheckDomain.getWhoisData d up now = .ok none ↔
      CheckDomain.upstreamAvailable up = true := by
  cases up with
  | reqError => simp [CheckDomain.getWhoisData, CheckDomain.upstreamAvailable]
  | timeout => simp [CheckDomain.getWhoisData, CheckDomain.upstreamAvailable]
  | parseError => simp [CheckDomain.getWhoisData, CheckDomain.upstreamAvailable]
  | response p =>
    cases hst : DomainChecker.jsGet p "status" with
    | error e => simp [CheckDomain.getWhoisData, CheckDomain.upstreamAvailable, hst]
    | ok st =>
      by_cases ha : DomainChecker.isStr st "available" = true
      · simp [CheckDomain.getWhoisData, CheckDomain.upstreamAvailable, hst, ha]
      · cases hreg : DomainChecker.isStr st "registered" &&
            DomainChecker.truthyOpt (DomainChecker.jGetOpt p "expiry_date") with
        | false =>
          simp [CheckDomain.getWhoisData, CheckDomain.upstreamAvailable, hst, ha, hreg]
        | true =>
          simp [CheckDomain.getWhoisData, CheckDomain.upstreamAvailable, hst, ha, hreg]

theorem getWhoisData_sample (d : String) (up : CheckDomain.Upstream) (now : Int) :
    CheckDomain.upstreamAvailable up = false → CheckDomain.genuineRegistered up = false →
      CheckDomain.getWhoisData d up now =
        .ok (some (CheckDomain.generateSampleData d now)) := by
  intro h1 h2
  cases up with
  | reqError => rfl
  | timeout => rfl
  | parseError => rfl
  | response p =>
    cases hst : DomainChecker.jsGet p "status" with
    | error e => simp [CheckDomain.getWhoisData, hst]
    | ok st =>
      simp only [CheckDomain.upstreamAvailable, hst] at h1
      simp only [CheckDomain.genuineRegistered, hst] at h2
      simp [CheckDomain.getWhoisData, hst, h1, h2]

theorem getWhoisData_isOk (d : String) (up : CheckDomain.Upstream) (now : Int) :
    ∃ r, CheckDomain.getWhoisData d up now = .ok r := by
  cases up with
  | reqError => exact ⟨_, rfl⟩
  | timeout => exact ⟨_, rfl⟩
  | parseError => exact ⟨_, rfl⟩
  | response p =>
    cases hst : DomainChecker.jsGet p "status" with
    | error e =>
      exact ⟨some (CheckDomain.generateSampleData d now),
        by simp [CheckDomain.getWhoisData, hst]⟩
    | ok st =>
      simp only [CheckDomain.getWhoisData, hst]
      split
      · exact ⟨none, rfl⟩
      · split
        · exact ⟨_, rfl⟩
        · exact ⟨_, rfl⟩

theorem getWhoisData_ok_some_fields (d : String) (up : CheckDomain.Upstream) (now : Int)
    (r : CheckDomain.WhoisRecord) :
    CheckDomain.getWhoisData d up now = .ok (some r) →
      r.status = "registered" ∧ r.domain = d := by
  intro h
  cases up with
  | reqError =>
    simp only [CheckDomain.getWhoisData, Except.ok.injEq, Option.some.injEq] at h
    subst h; exact ⟨rfl, rfl⟩
  | timeout =>
    simp only [CheckDomain.getWhoisData, Except.ok.injEq, Option.some.injEq] at h
    subst h; exact ⟨rfl, rfl⟩
  | parseError =>
    simp only [CheckDomain.getWhoisData, Except.ok.injEq, Option.some.injEq] at h
    subst h; exact ⟨rfl, rfl⟩
  | response p =>
    cases hst : DomainChecker.jsGet p "status" with
    | error e =>
      simp only [CheckDomain.getWhoisData, hst, Except.ok.injEq, Option.some.injEq] at h
      subst h; exact ⟨rfl, rfl⟩
    | ok st =>
      simp only [CheckDomain.getWhoisData, hst] at h
      split at h
      · simp at h
      · split at h
        · simp only [Except.ok.injEq, Option.some.injEq] at h
          subst h; exact ⟨rfl, rfl⟩
        · simp only [Except.ok.injEq, Option.some.injEq] at h
          subst h; exact ⟨rfl, rfl⟩

/-- Claim C10 (confirmed): `getWhoisData` never rejects; it resolves null
exactly when the upstream response parses with `status === 'available'`; on a
request error, timeout or parse error, and on any response that is neither
available nor a genuine registered record with truthy expiry, it resolves the
sample record generated from the domain's character-code sum, whose
expiry_date, creation_date and registrar are all non-null and whose status is
`"registered"`; consequently the handler's 404 branch is reachable only when
the upstream reports the domain as available. -/
theorem c10_getWhoisData_total_spec (d : String) (up : CheckDomain.Upstream) (now : Int) :
    (∃ r, CheckDomain.getWhoisData d up now = .ok r) ∧
    (CheckDomain.getWhoisData d up now = .ok none ↔
      CheckDomain.upstreamAvailable up = true) ∧
    ((up = .reqError ∨ up = .timeout ∨ up = .parseError) →
      CheckDomain.getWhoisData d up now =
        .ok (some (CheckDomain.generateSampleData d now))) ∧
    (CheckDomain.upstreamAvailable up = false →
      CheckDomain.genuineRegistered up = false →
      CheckDomain.getWhoisData d up now =
        .ok (some (CheckDomain.generateSampleData d now))) ∧
    ((CheckDomain.generateSampleData d now).expiry_date ≠ .jnull ∧
     (CheckDomain.generateSampleData d now).creation_date ≠ .jnull ∧
     (CheckDomain.generateSampleData d now).registrar ≠ .jnull ∧
     (CheckDomain.generateSampleData d now).status = "registered") ∧
    (∀ ev : Part000.Event, (CheckDomain.handler ev up now).statusCode = 404 →
      CheckDomain.upstreamAvailable up = true) := by
  refine ⟨getWhoisData_isOk d up now, getWhoisData_ok_none_iff d up now, ?_,
    getWhoisData_sample d up now,
    ⟨fun h => DomainChecker.JsonVal.noConfusion h,
     fun h => DomainChecker.JsonVal.noConfusion h,
     fun h => DomainChecker.JsonVal.noConfusion h, rfl⟩, ?_⟩
  · rintro (rfl | rfl | rfl) <;> rfl
  · intro ev h
    simp only [CheckDomain.handler] at h
    split at h
    · simp at h
    · split at h
      · simp at h
      · split at h
        · simp at h
        · split at h
          · simp at h
          · split at h
            · simp at h
            · next heq => exact (getWhoisData_ok_none_iff _ up now).mp heq
            · simp at h

/-- Claim C10 witness: at the concrete domain `"example.com"`, a request
error and time 0, `getWhoisData` resolves the sample record and the upstream
is not reported as available. -/
theorem c10_getWhoisData_total_spec_witness :
    CheckDomain.getWhoisData "example.com" .reqError 0 =
      .ok (some (CheckDomain.generateSampleData "example.com" 0)) ∧
    CheckDomain.upstreamAvailable .reqError = false :=
  ⟨(c10_getWhoisData_total_spec "example.com" .reqError 0).2.2.1 (Or.inl rfl), rfl⟩

/-- Claim C3 (corrected, amended part): for the `check-domain.js` handler,
every valid domain whose source lookup yields a record produces a 200
response whose body is exactly that record, with a `domain` field equal to
the requested domain and a `status` field equal to `"registered"`. (The
`part_000` handler does not satisfy the claim: its system-whois success body
carries `domain_name` and no `status` field — see the counterexample.) -/
theorem c3_check_domain_success_shape (ev : Part000.Event) (d : String)
    (up : CheckDomain.Upstream) (now : Int) (r : CheckDomain.WhoisRecord)
    (hm : ev.httpMethod ≠ "OPTIONS")
    (hq : ev.queryStringParameters.bind (fun q => q.domain) = some d)
    (hne : d ≠ "")
    (hreg : CheckDomain.domainRegexTest d = true)
    (hw : CheckDomain.getWhoisData d up now = .ok (some r)) :
    CheckDomain.handler ev up now = ⟨200, .record r⟩ ∧
    r.status = "registered" ∧ r.domain = d := by
  refine ⟨?_, getWhoisData_ok_some_fields d up now r hw⟩
  simp only [CheckDomain.handler, if_neg hm, hq]
  simp [hne, hreg, hw]

/-- Claim C3 witness: the general 200-shape theorem instantiated at
`"example.com"` with a request error at time 0 (where the resolved record is
the sample record). -/
theorem c3_check_domain_success_shape_witness :
    CheckDomain.handler ⟨"GET", some ⟨some "example.com"⟩⟩ .reqError 0 =
      ⟨200, .record (CheckDomain.generateSampleData "example.com" 0)⟩ ∧
    (CheckDomain.generateSampleData "example.com" 0).status = "registered" ∧
    (CheckDomain.generateSampleData "example.com" 0).domain = "example.com" :=
  c3_check_domain_success_shape ⟨"GET", some ⟨some "example.com"⟩⟩ "example.com"
    .reqError 0 (CheckDomain.generateSampleData "example.com" 0)
    (by decide) rfl (by decide) (by decide) rfl

/-- Claim C6 (corrected, amended part): for the `check-domain.js` handler,
every non-preflight request whose domain parameter is absent — including
requests whose query-parameter collection is itself null or missing — gets
status 400 with an error body, never 500. (The `part_000` handler does not:
a null collection there yields 500 — see the counterexample.) -/
theorem c6_check_domain_missing_domain_400 (ev : Part000.Event)
    (up : CheckDomain.Upstream) (now : Int)
    (hm : ev.httpMethod ≠ "OPTIONS")
    (hq : ev.queryStringParameters.bind (fun q => q.domain) = none) :
    (CheckDomain.handler ev up now).statusCode = 400 ∧
    ∃ msg, (CheckDomain.handler ev up now).body = .error msg := by
  refine ⟨?_, ?_⟩ <;> simp [CheckDomain.handler, if_neg hm, hq]

/-- Claim C6 witness: a GET request with a missing query-parameter
collection gets 400 with an error body from the `check-domain.js`
handler. -/
theorem c6_check_domain_missing_domain_400_witness :
    (CheckDomain.handler ⟨"GET", none⟩ .reqError 0).statusCode = 400 ∧
    ∃ msg, (CheckDomain.handler ⟨"GET", none⟩ .reqError 0).body = .error msg :=
  c6_check_domain_missing_domain_400 ⟨"GET", none⟩ .reqError 0 (by decide) rfl

/-- Claim C7 (corrected, amended part): for the `check-domain.js` handler, a
present domain value that fails the syntactic domain regex gets status 400
with an error body, and the response is independent of the source outcome
and of the current time — no source lookup influences it. (The `part_000`
handler does not satisfy the claim: it validates nothing and proceeds to the
sources — see the counterexample.) -/
theorem c7_check_domain_invalid_domain_400_no_lookup (ev : Part000.Event) (d : String)
    (up up' : CheckDomain.Upstream) (now now' : Int)
    (hm : ev.httpMethod ≠ "OPTIONS")
    (hq : ev.queryStringParameters.bind (fun q => q.domain) = some d)
    (hreg : CheckDomain.domainRegexTest d = false) :
    (CheckDomain.handler ev up now).statusCode = 400 ∧
    (∃ msg, (CheckDomain.handler ev up now).body = .error msg) ∧
    CheckDomain.handler ev up now = CheckDomain.handler ev up' now' := by
  by_cases hd : d = ""
  · simp only [CheckDomain.handler, if_neg hm, hq, hd]
    exact ⟨rfl, ⟨_, rfl⟩, rfl⟩
  · simp only [CheckDomain.handler, if_neg hm, hq, if_neg hd, hreg]
    exact ⟨rfl, ⟨_, rfl⟩, rfl⟩

/-- Claim C7 witness: the invalid domain `"not a domain"` gets 400 with an
error body from the `check-domain.js` handler, identically across different
source outcomes and times. -/
theorem c7_check_domain_invalid_domain_400_no_lookup_witness :
    (CheckDomain.handler ⟨"GET", some ⟨some "not a domain"⟩⟩ .reqError 0).statusCode
      = 400 ∧
    (∃ msg, (CheckDomain.handler ⟨"GET", some ⟨some "not a domain"⟩⟩ .reqError 0).body
      = .error msg) ∧
    CheckDomain.handler ⟨"GET", some ⟨some "not a domain"⟩⟩ .reqError 0 =
      CheckDomain.handler ⟨"GET", some ⟨some "not a domain"⟩⟩ .timeout 1 :=
  c7_check_domain_invalid_domain_400_no_lookup ⟨"GET", some ⟨some "not a domain"⟩⟩
    "not a domain" .reqError .timeout 0 1 (by decide) rfl (by decide)
